import Mathlib

/-!
Verification of the session/event-bus subsystem of the portia-agents backend.

The Python sources embedded here:
- `app/services/session_service.py` (`SessionService`): session store, event log,
  subscriber registry, broadcast, cleanup.
- `app/services/portia_service.py` (`PortiaService`): execution driver
  (`run_query_with_session`), step-callback routing (`stream_step`),
  tool validation (`_get_portia_instance`).
- `app/api/sessions.py`: the create-session endpoint, the continue endpoint and
  the SSE stream generator, modelled as sequential state transformers.

Python dicts are modelled as association lists with first-match lookup;
`None`-able fields become `Option`; timestamps and generated identifiers are
explicit parameters (they are effects of `datetime.now()` / `uuid.uuid4()`);
the external Portia execution collaborator is a parameter describing its
outcome, per the spec's boundary (`run -> success with result, or error`).
-/

namespace PortiaAgents

/-- Opaque payloads standing for Python `Any` values (query strings, results,
step outputs). `None` is represented by `Option.none` at use sites. -/
inductive Value where
  | str (s : String)
  | num (n : Int)
deriving DecidableEq

/-- Query types accepted by the API (`Literal["chat", "research", "docs"]`). -/
inductive QueryType where
  | chat
  | research
  | docs
deriving DecidableEq

/-- `SessionStatus` pydantic model from `app/schemas/session.py`: all fields
after `created_at` default to `None`. -/
structure SessionStatus where
  session_id : String
  status : String
  created_at : String
  started_at : Option String := none
  completed_at : Option String := none
  result : Option Value := none
  error : Option String := none
  execution_time : Option Rat := none
deriving DecidableEq

/-- `StepEvent` pydantic model from `app/schemas/session.py`. -/
structure StepEvent where
  session_id : String
  timestamp : String
  event_type : String
  step_id : Option String := none
  step_name : Option String := none
  tool_id : Option String := none
  status : String
  output : Option Value := none
  error : Option String := none
deriving DecidableEq

/-- One client connection's `asyncio.Queue(maxsize=100)`: `qid` is the object
identity by which the set `self._session_connections[sid]` stores it, `buf` the
queued items, `broken` models a queue whose `put_nowait` raises an exception
other than `QueueFull`. -/
structure Subscriber where
  qid : Nat
  maxsize : Nat
  buf : List StepEvent := []
  broken : Bool := false
deriving DecidableEq

/-- Association-list lookup, modelling Python `dict.get`. -/
def alookup {α : Type} (l : List (String × α)) (k : String) : Option α :=
  (l.find? (fun p => p.1 = k)).map (fun p => p.2)

/-- Association-list insert-or-replace, modelling Python `dict[k] = v`. -/
def aupdate {α : Type} : List (String × α) → String → α → List (String × α)
  | [], k, v => [(k, v)]
  | (k', v') :: t, k, v =>
      if k' = k then (k, v) :: t else (k', v') :: aupdate t k v

/-- Association-list key removal, modelling Python `dict.pop(k, None)` /
`del dict[k]` (a dict holds each key at most once). -/
def aerase {α : Type} (l : List (String × α)) (k : String) : List (String × α) :=
  l.filter (fun p => ¬ p.1 = k)

/-- Python truthiness test `not s` for a `str | None` value. -/
def pyFalsy : Option String → Bool
  | none => true
  | some s => s = ""

/-- `MAX_EVENTS_PER_SESSION` from `session_service.py`. -/
def MAX_EVENTS_PER_SESSION : Nat := 200

/-- The three dictionaries of the `SessionService` singleton:
`_sessions`, `_session_connections`, `_session_events`. -/
structure ServiceState where
  sessions : List (String × SessionStatus) := []
  connections : List (String × List Subscriber) := []
  events : List (String × List StepEvent) := []
deriving DecidableEq

/-- The fresh service state (`SessionService.__init__`). -/
def emptyService : ServiceState := {}

/-- `SessionService.create_session`: the generated `uuid4` and `now` are
parameters; the `_query` / `_query_type` arguments are accepted and unused,
as in the source. Returns the new session and the updated state. -/
def create_session (st : ServiceState) ( _query : String) (_query_type : QueryType)
    (session_id : String) (now : String) :
    SessionStatus × ServiceState :=
  let session : SessionStatus :=
    { session_id := session_id, status := "pending", created_at := now }
  (session, { st with sessions := aupdate st.sessions session_id session })

/-- `SessionService.get_session`. -/
def get_session (st : ServiceState) (session_id : String) : Option SessionStatus :=
  alookup st.sessions session_id

/-- The field mutations `update_session_status` performs on the session it
found: write the status, then either set `started_at` (entering `running`
with a falsy `started_at`) or write the four terminal fields
(`completed`/`failed`), or nothing more. -/
def updatedSession (session : SessionStatus) (status : String)
    (result : Option Value) (error : Option String)
    (execution_time : Option Rat) (now : String) : SessionStatus :=
  let session := { session with status := status }
  if status = "running" ∧ pyFalsy session.started_at then
    { session with started_at := some now }
  else if status = "completed" ∨ status = "failed" then
    { session with completed_at := some now, result := result,
                   error := error, execution_time := execution_time }
  else session

/-- `SessionService.update_session_status`: no-op on an unknown id, otherwise
store the mutated session back under its id. -/
def update_session_status (st : ServiceState) (session_id : String)
    (status : String) (result : Option Value)
    (error : Option String) (execution_time : Option Rat)
    (now : String) : ServiceState :=
  match alookup st.sessions session_id with
  | none => st
  | some session =>
      let session := updatedSession session status result error execution_time now
      { st with sessions := aupdate st.sessions session_id session }

/-- `SessionService.add_connection`: `set.add` on the defaultdict entry
(identity-based deduplication by `qid`). -/
def add_connection (st : ServiceState) (session_id : String) (q : Subscriber) :
    ServiceState :=
  let conns := (alookup st.connections session_id).getD []
  let conns := if conns.any (fun r => r.qid = q.qid) then conns else conns ++ [q]
  { st with connections := aupdate st.connections session_id conns }

/-- `SessionService.remove_connection`: `set.discard` then delete the key when
the set became empty. -/
def remove_connection (st : ServiceState) (session_id : String) (q : Subscriber) :
    ServiceState :=
  let conns := ((alookup st.connections session_id).getD []).filter
    (fun r => ¬ r.qid = q.qid)
  if conns.isEmpty then
    { st with connections := aerase st.connections session_id }
  else
    { st with connections := aupdate st.connections session_id conns }

/-- `asyncio.Queue.put_nowait`: `none` when the queue raises (`QueueFull` when
at capacity, or any other send failure when `broken`). -/
def putNowait (q : Subscriber) (e : StepEvent) : Option Subscriber :=
  if q.broken then none
  else if q.buf.length < q.maxsize then some { q with buf := q.buf ++ [e] }
  else none

/-- The event-log step of `broadcast_event`: `events.append(event)` followed by
`if len(events) > MAX_EVENTS_PER_SESSION: events.pop(0)`. -/
def appendCapped (l : List StepEvent) (e : StepEvent) : List StepEvent :=
  let l1 := l ++ [e]
  if l1.length > MAX_EVENTS_PER_SESSION then l1.tail else l1

/-- `SessionService.broadcast_event`: append to the (lazily created) log with
FIFO eviction, attempt a non-blocking send to every registered subscriber,
collect the failed ones and remove each via `remove_connection` in the same
pass. A successful `put_nowait` mutates that queue in place, modelled by
replacing the session's subscriber list with the updated queues. -/
def broadcast_event (st : ServiceState) (session_id : String) (event : StepEvent) :
    ServiceState :=
  let evs := (alookup st.events session_id).getD []
  let st := { st with events := aupdate st.events session_id (appendCapped evs event) }
  let connections := (alookup st.connections session_id).getD []
  let updated := connections.map (fun q => (putNowait q event).getD q)
  let disconnected := connections.filter (fun q => (putNowait q event).isNone)
  let st :=
    if connections.isEmpty then st
    else { st with connections := aupdate st.connections session_id updated }
  disconnected.foldl (fun s q => remove_connection s session_id q) st

/-- `SessionService.get_session_events`: `events[-limit:] if events else []`
(for the positive limits the callers use). -/
def get_session_events (st : ServiceState) (session_id : String)
    (limit : Nat) : List StepEvent :=
  let evs := (alookup st.events session_id).getD []
  if evs.isEmpty then [] else evs.drop (evs.length - limit)

/-- `SessionService.get_active_connections_count`. -/
def get_active_connections_count (st : ServiceState) (session_id : String) : Nat :=
  ((alookup st.connections session_id).getD []).length

/-- `SessionService.cleanup_session`: return unchanged while the session has a
truthy (non-empty) connection set, otherwise pop the session, its events and
its connection entry. -/
def cleanup_session (st : ServiceState) (session_id : String) : ServiceState :=
  if ¬ ((alookup st.connections session_id).getD []).isEmpty then st
  else
    { sessions := aerase st.sessions session_id,
      connections := aerase st.connections session_id,
      events := aerase st.events session_id }

/-- Modelled from the spec: `InvalidToolsError` lives in `app/exceptions.py`,
which is not among the sources; per the spec's error taxonomy it carries the
offending and the available tool identifiers, and `portia_service.py`
constructs it as `InvalidToolsError(list(tools), list(available_tools_map.keys()))`. -/
structure InvalidToolsError where
  invalid_tools : List String
  available_tools : List String
deriving DecidableEq

/-- Modelled from the spec: the `str(e)` rendering of an `InvalidToolsError`
(`app/exceptions.py` is not among the sources); only its presence as a non-null
error message matters to the claims. -/
def invalidToolsMessage (e : InvalidToolsError) : String :=
  "Invalid tools requested: " ++ String.intercalate ", " e.invalid_tools

/-- `CHAT_PLAN_TEMPLATE` from `app/config.py`. -/
def CHAT_PLAN_TEMPLATE : String :=
  "\nYou are a helpful AI assistant.\n\n- Answer the user query clearly and concisely.\n- Keep responses brief.\n- Do not include unnecessary details unless asked.\n- If you do not know the answer, say so honestly.\n- Do not include summary\n\nUser query: {query}\n"

/-- `RESEARCH_PLAN_TEMPLATE` from `app/config.py` (abbreviated body, same
`{query}` placeholder). -/
def RESEARCH_PLAN_TEMPLATE : String :=
  "\nYou are a research assistant AI. Provide well-structured markdown responses.\n\nUser query: {query}\n"

/-- `DOC_AGENT_PLAN_TEMPLATE` from `app/config.py` (abbreviated body, same
`{repo}` and `{query}` placeholders). -/
def DOC_AGENT_PLAN_TEMPLATE : String :=
  "\nYou are DocsAgent. Your task is to answer the user query properly for the repository '{repo}'\n\nUser Query: {query}\n"

/-- `template_map` from `app/config.py`. -/
def template_map : QueryType → String
  | .chat => CHAT_PLAN_TEMPLATE
  | .research => RESEARCH_PLAN_TEMPLATE
  | .docs => DOC_AGENT_PLAN_TEMPLATE

/-- Python `str.format`: substitute the `{query}` placeholder, and for the
docs template also the `{repo}` placeholder (`repo_name` may be `None`, which
formats as the string `None`). -/
def formatTemplate (qt : QueryType) (template query : String)
    (repo : Option String) : String :=
  match qt with
  | .docs => ((template.replace "{query}" query).replace "{repo}" (repo.getD "None"))
  | _ => template.replace "{query}" query

/-- The mutable fields of the `PortiaService` singleton that the driver touches:
`_tools`/`_portia_instance` are the instance cache (`some ts` standing for a
built `Portia` instance over tool set `ts`, `none` for no instance yet), and
`_current_session_id` is the module-level hook context of
`portia_service.py` (initially Python `None`). -/
structure PortiaState where
  cache : Option (List String) := none
  current_session_id : Option String := none
deriving DecidableEq

/-- Python set equality of two tool-id lists. -/
def sameToolSet (a b : List String) : Bool :=
  a.all (fun t => b.contains t) && b.all (fun t => a.contains t)

/-- `PortiaService._get_portia_instance`: reuse the cached instance when the
requested tool set equals the cached one, otherwise validate the request
against the available-tool map (a parameter: the map is fetched from external
registries) and either rebuild the cache or raise `InvalidToolsError` carrying
the whole requested list and the available ids. -/
def getPortiaInstance (ps : PortiaState) (tools available : List String) :
    Except InvalidToolsError PortiaState :=
  if (match ps.cache with
      | some cached => sameToolSet tools cached
      | none => false) then
    .ok ps
  else if tools.all (fun t => available.contains t) then
    .ok { ps with cache := some tools }
  else
    .error ⟨tools, available⟩

/-- Outcome of the external Portia collaborator call
(`portia_instance.run` offloaded to the executor): per the spec boundary it
yields a result or raises, with a measured duration. -/
inductive CollabOutcome where
  | ok (result : Value) (execTime : Rat)
  | raised (msg : String) (execTime : Rat)
deriving DecidableEq

/-- The dict returned by `PortiaService.run_query` (absent keys are `none`). -/
structure RunResult where
  success : Bool
  result : Option Value := none
  error : Option String := none
  execution_time : Rat
deriving DecidableEq

/-- `PortiaService.run_query`: `_get_portia_instance` runs before the `try`
block, so `InvalidToolsError` propagates to the caller; collaborator
exceptions inside the `try` are converted to a `success=False` dict. -/
def run_query (ps : PortiaState) (_query : String) (tools available : List String)
    (co : CollabOutcome) : Except InvalidToolsError (PortiaState × RunResult) :=
  match getPortiaInstance ps tools available with
  | .error e => .error e
  | .ok ps =>
      match co with
      | .ok v t => .ok (ps, { success := true, result := some v, execution_time := t })
      | .raised m t => .ok (ps, { success := false, error := some m, execution_time := t })

/-- Step data handed to the `after_step_execution` hook
(`step.model_dump()` / `output.model_dump()` projections used by `stream_step`). -/
structure StepInfo where
  id : Option String := none
  task : Option String := none
  tool_id : Option String := none
  output : Value
deriving DecidableEq

/-- `stream_step` from `portia_service.py`: read the module-level session
context; return untouched state when it is falsy (Python `None` or `""`),
otherwise broadcast a `step_update` (running) followed by a `step_completed`
with the output. -/
def stream_step (ctx : Option String) (st : ServiceState) (info : StepInfo)
    (t1 t2 : String) : ServiceState :=
  if pyFalsy ctx then st
  else
    let session_id := ctx.getD ""
    let start_event : StepEvent :=
      { session_id := session_id, timestamp := t1, event_type := "step_update",
        step_id := info.id, step_name := some (info.task.getD "Unknown Step"),
        tool_id := info.tool_id, status := "running", output := none }
    let st := broadcast_event st session_id start_event
    let completion_event : StepEvent :=
      { session_id := session_id, timestamp := t2, event_type := "step_completed",
        step_id := info.id, step_name := some (info.task.getD "Unknown Step"),
        tool_id := info.tool_id, status := "completed", output := some info.output }
    broadcast_event st session_id completion_event

/-- Result of one `run_query_with_session` call: the service state, the
portia-service state (cache and hook context) and the returned dict or the
propagated exception. -/
structure DriverOut where
  svc : ServiceState
  ps : PortiaState
  outcome : Except InvalidToolsError RunResult

/-- `PortiaService.run_query_with_session`: broadcast the `user_message`
event, set the session `running`, broadcast `session_started`, set the hook
context, select tools (a parameter: `tool_map` values are computed from
external registries at import time) and the prompt template, run the query,
finalize the session and broadcast the terminal event; the `finally` block
resets the hook context to `""` on success and on exception alike.
`t1..t5` are the successive `datetime.now()` readings. -/
def run_query_with_session (svc : ServiceState) (ps : PortiaState)
    (session_id query : String) (query_type : QueryType) (repo_name : Option String)
    (tool_map : QueryType → List String) (available : List String)
    (co : CollabOutcome) (t1 t2 t3 t4 t5 : String) : DriverOut :=
  let user_message_event : StepEvent :=
    { session_id := session_id, timestamp := t1, event_type := "user_message",
      step_name := some "User", status := "completed", output := some (.str query) }
  let svc := broadcast_event svc session_id user_message_event
  let svc := update_session_status svc session_id "running" none none none t2
  let start_event : StepEvent :=
    { session_id := session_id, timestamp := t3, event_type := "session_started",
      status := "running" }
  let svc := broadcast_event svc session_id start_event
  let ps := { ps with current_session_id := some session_id }
  let tools := tool_map query_type
  let modified_query := formatTemplate query_type (template_map query_type) query repo_name
  match run_query ps modified_query tools available co with
  | .error e =>
      { svc := svc, ps := { ps with current_session_id := some "" }, outcome := .error e }
  | .ok (ps, result) =>
      let svc :=
        if result.success then
          let svc := update_session_status svc session_id "completed"
            result.result none (some result.execution_time) t4
          let completion_event : StepEvent :=
            { session_id := session_id, timestamp := t5,
              event_type := "session_completed", status := "completed",
              output := result.result }
          broadcast_event svc session_id completion_event
        else
          let svc := update_session_status svc session_id "failed"
            none result.error (some result.execution_time) t4
          let error_event : StepEvent :=
            { session_id := session_id, timestamp := t5,
              event_type := "session_failed", status := "failed",
              error := result.error }
          broadcast_event svc session_id error_event
      { svc := svc, ps := { ps with current_session_id := some "" }, outcome := .ok result }

/-- `_execute_session` from `app/api/sessions.py` (the background task body):
await the driver and, if it raised, record the failure on the session with
`error=str(e)` (no result, no execution time). `t6` is the `now` of that
failure write. -/
def execute_session (svc : ServiceState) (ps : PortiaState)
    (session_id query : String) (query_type : QueryType) (repo_name : Option String)
    (tool_map : QueryType → List String) (available : List String)
    (co : CollabOutcome) (t1 t2 t3 t4 t5 t6 : String) : ServiceState × PortiaState :=
  let d := run_query_with_session svc ps session_id query query_type repo_name
    tool_map available co t1 t2 t3 t4 t5
  match d.outcome with
  | .ok _ => (d.svc, d.ps)
  | .error e =>
      (update_session_status d.svc session_id "failed" none
        (some (invalidToolsMessage e)) none t6, d.ps)

/-- `SessionCreateRequest` from `app/schemas/session.py`. -/
structure SessionCreateRequest where
  query : String
  query_type : QueryType
  repo_name : Option String := none
deriving DecidableEq

/-- `SessionResponse` from `app/schemas/session.py`. -/
structure SessionResponse where
  session_id : String
  status : String
  created_at : String
  stream_url : String
deriving DecidableEq

/-- The synchronous body of the `POST /sessions` endpoint (`create_session`
in `app/api/sessions.py`): create the session, schedule `_execute_session`
as a fire-and-forget task, and return the 201 response. Nothing in this
synchronous phase can raise `InvalidToolsError`, so its `except` handler is
not represented by any error path here. Returns the response, the state after
the synchronous phase, and the scheduled task's arguments. -/
def create_session_endpoint (svc : ServiceState) (req : SessionCreateRequest)
    (session_id now : String) :
    SessionResponse × ServiceState × (String × String × QueryType × Option String) :=
  let (session, svc) := create_session svc req.query req.query_type session_id now
  let resp : SessionResponse :=
    { session_id := session.session_id, status := session.status,
      created_at := session.created_at,
      stream_url := "/sessions/" ++ session.session_id ++ "/stream" }
  (resp, svc, (session.session_id, req.query, req.query_type, req.repo_name))

/-- The whole create-session flow in the sequential schedule the event loop
produces: the synchronous endpoint body runs to completion and returns its
response, then the scheduled `_execute_session` task runs. Yields the HTTP
response together with the service state after the background task finished. -/
def create_session_flow (svc : ServiceState) (ps : PortiaState)
    (req : SessionCreateRequest) (session_id now : String)
    (tool_map : QueryType → List String) (available : List String)
    (co : CollabOutcome) (t1 t2 t3 t4 t5 t6 : String) :
    SessionResponse × ServiceState × PortiaState :=
  let (resp, svc, task) := create_session_endpoint svc req session_id now
  let (sid, q, qt, repo) := task
  let (svc, ps) := execute_session svc ps sid q qt repo tool_map available co t1 t2 t3 t4 t5 t6
  (resp, svc, ps)

/-- Messages emitted on the SSE wire by `stream_session_events.event_generator`. -/
inductive SSEMessage where
  | connected (session_id timestamp : String)
  | ev (e : StepEvent) (is_historical : Bool)
  | heartbeat (session_id timestamp : String)
deriving DecidableEq

/-- The opening phase of `event_generator`: register the fresh client queue,
emit the synthetic `connected` message, then replay the last 20 stored events
tagged historical. -/
def stream_open (st : ServiceState) (session_id : String) (q : Subscriber)
    (ts : String) : ServiceState × List SSEMessage :=
  let st := add_connection st session_id q
  let recent := get_session_events st session_id 20
  (st, SSEMessage.connected session_id ts :: recent.map (fun e => SSEMessage.ev e true))

/-- One sequential schedule of a stream connection: the generator opens and
replays, then the events `bs` are broadcast to the session, then the live
loop drains the client queue (each receipt yielded non-historical, no 30s
timeout fires) and the peer disconnects. -/
def stream_scenario (st : ServiceState) (session_id : String) (q : Subscriber)
    (ts : String) (bs : List StepEvent) : List SSEMessage :=
  let (st, pre) := stream_open st session_id q ts
  let st := bs.foldl (fun s e => broadcast_event s session_id e) st
  let buf := ((((alookup st.connections session_id).getD []).find?
    (fun r => r.qid = q.qid)).map (fun r => r.buf)).getD []
  pre ++ buf.map (fun e => SSEMessage.ev e false)

/-- The body of the continue endpoint (`add_message_to_session`): 404 on an
unknown session, 409 while `running`, otherwise reset the status to `pending`
and schedule a new `_execute_session` task (the scheduled arguments are
returned alongside). -/
inductive ContinueResult where
  | notFound
  | conflict
  | ok (resp : SessionResponse)
deriving DecidableEq

/-- `add_message_to_session` from `app/api/sessions.py`, synchronous phase. -/
def add_message_to_session (st : ServiceState) (session_id : String)
    (_req : SessionCreateRequest) : ContinueResult × ServiceState :=
  match get_session st session_id with
  | none => (.notFound, st)
  | some session =>
      if session.status = "running" then (.conflict, st)
      else
        let st := update_session_status st session_id "pending" none none none ""
        (.ok { session_id := session.session_id, status := "pending",
               created_at := session.created_at,
               stream_url := "/sessions/" ++ session.session_id ++ "/stream" }, st)

/-! ### Association-list lemmas -/

theorem alookup_nil {α : Type} (k : String) : alookup ([] : List (String × α)) k = none := rfl

theorem alookup_aupdate_self {α : Type} (l : List (String × α)) (k : String) (v : α) :
    alookup (aupdate l k v) k = some v := by
  induction l with
  | nil => simp [aupdate, alookup, List.find?]
  | cons h t ih =>
      obtain ⟨k', v'⟩ := h
      by_cases hk : k' = k
      · subst hk
        simp [aupdate, alookup, List.find?]
      · simp only [aupdate, if_neg hk]
        simpa [alookup, List.find?, hk] using ih

theorem alookup_aupdate_ne {α : Type} (l : List (String × α)) (k k' : String) (v : α)
    (h : k' ≠ k) : alookup (aupdate l k v) k' = alookup l k' := by
  induction l with
  | nil => simp [aupdate, alookup, List.find?, Ne.symm h]
  | cons p t ih =>
      obtain ⟨k₀, v₀⟩ := p
      by_cases hk : k₀ = k
      · subst hk
        simp [aupdate, alookup, List.find?, Ne.symm h]
      · simp only [aupdate, if_neg hk]
        by_cases hk0 : k₀ = k'
        · subst hk0
          simp [alookup, List.find?]
        · simp only [alookup, List.find?] at ih ⊢
          simp [hk0, ih]

theorem alookup_aerase_self {α : Type} (l : List (String × α)) (k : String) :
    alookup (aerase l k) k = none := by
  induction l with
  | nil => rfl
  | cons p t ih =>
      obtain ⟨k₀, v₀⟩ := p
      by_cases hk : k₀ = k
      · simpa [aerase, hk] using ih
      · simp only [aerase, List.filter] at ih ⊢
        simp [hk, alookup, List.find?, ih, aerase]

theorem alookup_aerase_ne {α : Type} (l : List (String × α)) (k k' : String)
    (h : k' ≠ k) : alookup (aerase l k) k' = alookup l k' := by
  induction l with
  | nil => rfl
  | cons p t ih =>
      obtain ⟨k₀, v₀⟩ := p
      by_cases hk : k₀ = k
      · have he : aerase ((k₀, v₀) :: t) k = aerase t k := by
          simp [aerase, List.filter, hk]
        rw [he, ih]
        subst hk
        simp [alookup, List.find?, Ne.symm h]
      · have he : aerase ((k₀, v₀) :: t) k = (k₀, v₀) :: aerase t k := by
          simp [aerase, List.filter, hk]
        rw [he]
        by_cases hk0 : k₀ = k'
        · subst hk0
          simp [alookup, List.find?]
        · simp only [alookup, List.find?] at ih ⊢
          simp [hk0, ih]

/-! ### State views and frame lemmas -/

/-- The event log stored for a session (`[]` when no log exists yet). -/
def eventsOf (st : ServiceState) (session_id : String) : List StepEvent :=
  (alookup st.events session_id).getD []

/-- The registered subscribers of a session (`[]` when none). -/
def connsOf (st : ServiceState) (session_id : String) : List Subscriber :=
  (alookup st.connections session_id).getD []

theorem remove_connection_events (st : ServiceState) (k : String) (q : Subscriber) :
    (remove_connection st k q).events = st.events := by
  unfold remove_connection
  dsimp only
  split <;> rfl

theorem remove_connection_sessions (st : ServiceState) (k : String) (q : Subscriber) :
    (remove_connection st k q).sessions = st.sessions := by
  unfold remove_connection
  dsimp only
  split <;> rfl

theorem foldl_remove_events (ds : List Subscriber) (st : ServiceState) (k : String) :
    (ds.foldl (fun s q => remove_connection s k q) st).events = st.events := by
  induction ds generalizing st with
  | nil => rfl
  | cons d ds ih => simp [List.foldl_cons, ih, remove_connection_events]

theorem foldl_remove_sessions (ds : List Subscriber) (st : ServiceState) (k : String) :
    (ds.foldl (fun s q => remove_connection s k q) st).sessions = st.sessions := by
  induction ds generalizing st with
  | nil => rfl
  | cons d ds ih => simp [List.foldl_cons, ih, remove_connection_sessions]

theorem broadcast_event_events (st : ServiceState) (sid : String) (e : StepEvent) :
    (broadcast_event st sid e).events =
      aupdate st.events sid (appendCapped (eventsOf st sid) e) := by
  unfold broadcast_event
  dsimp only
  rw [foldl_remove_events]
  split <;> rfl

theorem broadcast_event_sessions (st : ServiceState) (sid : String) (e : StepEvent) :
    (broadcast_event st sid e).sessions = st.sessions := by
  unfold broadcast_event
  dsimp only
  rw [foldl_remove_sessions]
  split <;> rfl

theorem eventsOf_broadcast_self (st : ServiceState) (sid : String) (e : StepEvent) :
    eventsOf (broadcast_event st sid e) sid = appendCapped (eventsOf st sid) e := by
  rw [eventsOf, broadcast_event_events, alookup_aupdate_self]
  rfl

theorem eventsOf_broadcast_ne (st : ServiceState) (sid k : String) (e : StepEvent)
    (h : k ≠ sid) : eventsOf (broadcast_event st sid e) k = eventsOf st k := by
  rw [eventsOf, broadcast_event_events, alookup_aupdate_ne _ _ _ _ h]
  rfl

theorem update_session_status_events (st : ServiceState) (sid status : String)
    (r : Option Value) (er : Option String) (ti : Option Rat) (now : String) :
    (update_session_status st sid status r er ti now).events = st.events := by
  unfold update_session_status
  cases alookup st.sessions sid <;> rfl

theorem update_session_status_connections (st : ServiceState) (sid status : String)
    (r : Option Value) (er : Option String) (ti : Option Rat) (now : String) :
    (update_session_status st sid status r er ti now).connections = st.connections := by
  unfold update_session_status
  cases alookup st.sessions sid <;> rfl

theorem get_session_broadcast (st : ServiceState) (sid k : String) (e : StepEvent) :
    get_session (broadcast_event st sid e) k = get_session st k := by
  unfold get_session
  rw [broadcast_event_sessions]

theorem updatedSession_pending (s : SessionStatus) (r : Option Value)
    (er : Option String) (ti : Option Rat) (now : String) :
    updatedSession s "pending" r er ti now = { s with status := "pending" } := by
  unfold updatedSession
  rw [if_neg (by simp), if_neg (by simp)]

theorem get_session_update (st : ServiceState) (sid : String) (s : SessionStatus)
    (h : alookup st.sessions sid = some s) (status : String) (r : Option Value)
    (er : Option String) (ti : Option Rat) (now : String) :
    get_session (update_session_status st sid status r er ti now) sid =
      some (updatedSession s status r er ti now) := by
  unfold get_session update_session_status
  split
  · next hn => rw [h] at hn; cases hn
  · next s' hs =>
      rw [h] at hs
      injection hs with hss
      subst hss
      exact alookup_aupdate_self st.sessions sid _

theorem get_session_update_ne (st : ServiceState) (sid k status : String)
    (r : Option Value) (er : Option String) (ti : Option Rat) (now : String)
    (h : k ≠ sid) :
    get_session (update_session_status st sid status r er ti now) k =
      get_session st k := by
  unfold get_session update_session_status
  split
  · rfl
  · next s' hs => exact alookup_aupdate_ne st.sessions sid k _ h

/-! ### C5: cleanup is a no-op with live subscribers, full removal otherwise -/

/-- C5: for every session id, `cleanup_session` leaves the whole state
unchanged whenever at least one subscriber is registered for that session;
when the subscriber set is empty it removes the session entry, its event log
and its subscriber-set entry, leaving every other session's structures
untouched. -/
theorem cleanup_session_spec (st : ServiceState) (sid : String) :
    (connsOf st sid ≠ [] → cleanup_session st sid = st) ∧
    (connsOf st sid = [] →
      get_session (cleanup_session st sid) sid = none ∧
      alookup (cleanup_session st sid).events sid = none ∧
      alookup (cleanup_session st sid).connections sid = none ∧
      ∀ k, k ≠ sid →
        get_session (cleanup_session st sid) k = get_session st k ∧
        alookup (cleanup_session st sid).events k = alookup st.events k ∧
        alookup (cleanup_session st sid).connections k = alookup st.connections k) := by
  constructor
  · intro h
    unfold cleanup_session
    rw [if_pos]
    intro hl
    exact h (List.isEmpty_iff.mp hl)
  · intro h
    unfold cleanup_session
    rw [if_neg]
    · refine ⟨?_, ?_, ?_, ?_⟩
      · exact alookup_aerase_self st.sessions sid
      · exact alookup_aerase_self st.events sid
      · exact alookup_aerase_self st.connections sid
      · intro k hk
        exact ⟨alookup_aerase_ne st.sessions sid k hk,
               alookup_aerase_ne st.events sid k hk,
               alookup_aerase_ne st.connections sid k hk⟩
    · intro hcon
      apply hcon
      rw [List.isEmpty_iff]
      exact h

/-- Concrete state for the C5 witness: session `"s"` with one live subscriber. -/
def c5StateA : ServiceState :=
  { connections := [("s", [{ qid := 0, maxsize := 100 }])] }

/-- Concrete state for the C5 witness: session `"s"` stored with an event log
and no subscribers. -/
def c5StateB : ServiceState :=
  { sessions := [("s", { session_id := "s", status := "completed", created_at := "t0" })],
    events := [("s", [{ session_id := "s", timestamp := "t0",
                        event_type := "user_message", status := "completed" }])] }

theorem cleanup_session_spec_witness :
    cleanup_session c5StateA "s" = c5StateA ∧
    get_session (cleanup_session c5StateB "s") "s" = none :=
  ⟨(cleanup_session_spec c5StateA "s").1 (by decide),
   ((cleanup_session_spec c5StateB "s").2 (by decide)).1⟩

/-! ### C10: create_session ignores the query and initializes a pending session -/

/-- C10: `create_session` returns a session whose identifier is the generated
token, whose status is `pending`, whose `created_at` is the current time and
whose remaining fields are all null; the result is literally independent of
the query text and query type, and the only state change is storing the new
session under its identifier (all other sessions, all event logs and all
subscriber sets are untouched). -/
theorem create_session_spec (st : ServiceState) (q q' : String)
    (qt qt' : QueryType) (sid now : String) :
    create_session st q qt sid now = create_session st q' qt' sid now ∧
    (create_session st q qt sid now).1.session_id = sid ∧
    (create_session st q qt sid now).1.status = "pending" ∧
    (create_session st q qt sid now).1.created_at = now ∧
    (create_session st q qt sid now).1.started_at = none ∧
    (create_session st q qt sid now).1.completed_at = none ∧
    (create_session st q qt sid now).1.result = none ∧
    (create_session st q qt sid now).1.error = none ∧
    (create_session st q qt sid now).1.execution_time = none ∧
    get_session (create_session st q qt sid now).2 sid =
      some (create_session st q qt sid now).1 ∧
    (∀ k, k ≠ sid →
      get_session (create_session st q qt sid now).2 k = get_session st k) ∧
    (create_session st q qt sid now).2.events = st.events ∧
    (create_session st q qt sid now).2.connections = st.connections := by
  refine ⟨rfl, rfl, rfl, rfl, rfl, rfl, rfl, rfl, rfl, ?_, ?_, rfl, rfl⟩
  · exact alookup_aupdate_self st.sessions sid _
  · intro k hk
    exact alookup_aupdate_ne st.sessions sid k _ hk

/-- Concrete state for the C10 witness: one unrelated session is present. -/
def c10State : ServiceState :=
  { sessions := [("other", { session_id := "other", status := "running",
                             created_at := "t" })] }

theorem create_session_spec_witness :
    (create_session c10State "2+2?" QueryType.chat "fresh" "t1").1.status = "pending" ∧
    get_session (create_session c10State "2+2?" QueryType.chat "fresh" "t1").2 "other" =
      get_session c10State "other" := by
  obtain ⟨-, -, h2, -, -, -, -, -, -, -, h10, -, -⟩ :=
    create_session_spec c10State "2+2?" "what?" QueryType.chat QueryType.research "fresh" "t1"
  exact ⟨h2, h10 "other" (by decide)⟩

/-! ### C2: reviving a terminal session back to pending -/

/-- A completed session used to exhibit C2's failure: result, `completed_at`
and `execution_time` are populated. -/
def c2State : ServiceState :=
  { sessions := [("s", { session_id := "s", status := "completed",
                         created_at := "t0", started_at := some "t1",
                         completed_at := some "t2",
                         result := some (Value.str "r"), error := none,
                         execution_time := some 5 })] }

/-- C2 counterexample: updating the completed session `"s"` back to `pending`
(the continue/revive reset performed by `add_message_to_session`) leaves
`result`, `completed_at` and `execution_time` populated — the terminal fields
are not cleared, contradicting the claim that the revive operation clears
them. -/
theorem revive_counterexample :
    get_session (update_session_status c2State "s" "pending" none none none "t3") "s" =
      some { session_id := "s", status := "pending", created_at := "t0",
             started_at := some "t1", completed_at := some "t2",
             result := some (Value.str "r"), error := none,
             execution_time := some 5 } := by
  decide

/-- C2 amended: for every session in a terminal state, updating its status
back to `pending` changes only the `status` field — `session_id` and
`created_at` are unchanged, and the terminal fields `result`, `error`,
`completed_at` and `execution_time` are likewise left unchanged rather than
cleared; no other session and no event log or subscriber set is affected. -/
theorem revive_to_pending_frame (st : ServiceState) (sid : String)
    (s : SessionStatus) (h : get_session st sid = some s)
    (_hterm : s.status = "completed" ∨ s.status = "failed") (now : String) :
    get_session (update_session_status st sid "pending" none none none now) sid =
      some { s with status := "pending" } ∧
    (∀ k, k ≠ sid →
      get_session (update_session_status st sid "pending" none none none now) k =
        get_session st k) ∧
    (update_session_status st sid "pending" none none none now).events = st.events ∧
    (update_session_status st sid "pending" none none none now).connections =
      st.connections := by
  have h' : alookup st.sessions sid = some s := h
  refine ⟨?_, ?_, update_session_status_events .., update_session_status_connections ..⟩
  · rw [get_session_update st sid s h', updatedSession_pending]
  · intro k hk
    exact get_session_update_ne st sid k "pending" none none none now hk

theorem revive_to_pending_frame_witness :
    get_session (update_session_status c2State "s" "pending" none none none "t3") "s" =
      some { session_id := "s", status := "pending", created_at := "t0",
             started_at := some "t1", completed_at := some "t2",
             result := some (Value.str "r"), error := none,
             execution_time := some 5 } :=
  (revive_to_pending_frame c2State "s"
    { session_id := "s", status := "completed", created_at := "t0",
      started_at := some "t1", completed_at := some "t2",
      result := some (Value.str "r"), error := none, execution_time := some 5 }
    (by decide) (Or.inl rfl) "t3").1

/-! ### C9: session-attribution context is cleared on every exit path -/

/-- C9: `run_query_with_session` leaves the module-level hook context at the
cleared value `""` on every exit path — on a successful run, on a collaborator
failure, and when tool validation raises and the exception propagates through
the `finally` block; and a `stream_step` notification that arrives while the
context is cleared (Python `None` or `""`) returns the service state
completely unchanged: no event appended, nothing delivered, nothing touched. -/
theorem context_cleared_on_exit :
    (∀ (svc : ServiceState) (ps : PortiaState) (sid query : String)
       (qt : QueryType) (repo : Option String)
       (tool_map : QueryType → List String) (available : List String)
       (co : CollabOutcome) (t1 t2 t3 t4 t5 : String),
      (run_query_with_session svc ps sid query qt repo tool_map available
        co t1 t2 t3 t4 t5).ps.current_session_id = some "") ∧
    (∀ (st : ServiceState) (info : StepInfo) (t1 t2 : String),
      stream_step (some "") st info t1 t2 = st) ∧
    (∀ (st : ServiceState) (info : StepInfo) (t1 t2 : String),
      stream_step none st info t1 t2 = st) := by
  refine ⟨?_, ?_, ?_⟩
  · intro svc ps sid query qt repo tool_map available co t1 t2 t3 t4 t5
    unfold run_query_with_session
    rcases h : run_query
        { ps with current_session_id := some sid }
        (formatTemplate qt (template_map qt) query repo)
        (tool_map qt) available co with e | pr
    · simp [h]
    · obtain ⟨ps2, result⟩ := pr
      simp [h]
  · intro st info t1 t2
    simp [stream_step, pyFalsy]
  · intro st info t1 t2
    simp [stream_step, pyFalsy]

/-! ### C7: started_at is written at most once, only on entering running -/

/-- One `update_session_status` invocation with its arguments and the
`datetime.now()` reading it would use. -/
structure UpdateCall where
  session_id : String
  status : String
  result : Option Value := none
  error : Option String := none
  execution_time : Option Rat := none
  now : String
deriving DecidableEq

/-- Apply one `update_session_status` call. -/
def applyUpdate (st : ServiceState) (c : UpdateCall) : ServiceState :=
  update_session_status st c.session_id c.status c.result c.error
    c.execution_time c.now

/-- The `started_at` field of a stored session (`none` when the session is
absent). -/
def startedAtOf (st : ServiceState) (sid : String) : Option String :=
  ((alookup st.sessions sid).map (fun s => s.started_at)).getD none

/-- The statuses of those calls in a trace that change `started_at` of the
given session. -/
def startedAtWriteStatuses (st : ServiceState) (sid : String) :
    List UpdateCall → List String
  | [] => []
  | c :: cs =>
      (if startedAtOf (applyUpdate st c) sid = startedAtOf st sid then []
       else [c.status]) ++ startedAtWriteStatuses (applyUpdate st c) sid cs

theorem updatedSession_started_at (s : SessionStatus) (status : String)
    (r : Option Value) (er : Option String) (ti : Option Rat) (now : String) :
    (updatedSession s status r er ti now).started_at =
      if status = "running" ∧ pyFalsy s.started_at then some now
      else s.started_at := by
  unfold updatedSession
  dsimp only
  split_ifs <;> rfl

theorem update_of_missing (st : ServiceState) (sid : String)
    (h : alookup st.sessions sid = none) (status : String) (r : Option Value)
    (er : Option String) (ti : Option Rat) (now : String) :
    update_session_status st sid status r er ti now = st := by
  unfold update_session_status
  split
  · rfl
  · next s' hs => rw [h] at hs; cases hs

theorem update_sessions_of_found (st : ServiceState) (sid : String)
    (s : SessionStatus) (h : alookup st.sessions sid = some s) (status : String)
    (r : Option Value) (er : Option String) (ti : Option Rat) (now : String) :
    (update_session_status st sid status r er ti now).sessions =
      aupdate st.sessions sid (updatedSession s status r er ti now) := by
  unfold update_session_status
  split
  · next hn => rw [h] at hn; cases hn
  · next s' hs =>
      rw [h] at hs
      injection hs with hss
      subst hss
      rfl

theorem startedAtOf_applyUpdate (st : ServiceState) (c : UpdateCall) (sid : String) :
    startedAtOf (applyUpdate st c) sid =
      if c.session_id = sid ∧ (alookup st.sessions sid).isSome ∧
          c.status = "running" ∧ pyFalsy (startedAtOf st sid) then some c.now
      else startedAtOf st sid := by
  rcases h : alookup st.sessions c.session_id with _ | s
  · have hnoop : applyUpdate st c = st := by
      unfold applyUpdate
      exact update_of_missing st c.session_id h c.status c.result c.error
        c.execution_time c.now
    rw [hnoop, if_neg]
    intro hc
    obtain ⟨h1, h2, -, -⟩ := hc
    rw [← h1, h] at h2
    exact Bool.false_ne_true h2
  · have hsess : (applyUpdate st c).sessions = aupdate st.sessions c.session_id
        (updatedSession s c.status c.result c.error c.execution_time c.now) := by
      unfold applyUpdate
      exact update_sessions_of_found st c.session_id s h c.status c.result
        c.error c.execution_time c.now
    have hsa : startedAtOf (applyUpdate st c) sid =
        ((alookup (applyUpdate st c).sessions sid).map
          (fun x => x.started_at)).getD none := rfl
    rw [hsa, hsess]
    by_cases hid : c.session_id = sid
    · subst hid
      have hsome : (alookup st.sessions c.session_id).isSome = true := by
        rw [h]; rfl
      have hl : startedAtOf st c.session_id = s.started_at := by
        unfold startedAtOf; rw [h]; rfl
      rw [alookup_aupdate_self]
      simp only [Option.map_some', Option.getD_some]
      rw [updatedSession_started_at, hl]
      by_cases hr : c.status = "running" ∧ pyFalsy s.started_at
      · rw [if_pos hr, if_pos (by exact ⟨by trivial, hsome, hr.1, hr.2⟩)]
      · rw [if_neg hr, if_neg (fun hc => hr ⟨hc.2.2.1, hc.2.2.2⟩)]
    · rw [alookup_aupdate_ne _ _ _ _ (Ne.symm hid),
        if_neg (fun hc => hid hc.1)]
      rfl

theorem startedAtWriteStatuses_of_nonFalsy (st : ServiceState) (sid : String)
    (trace : List UpdateCall) (h : pyFalsy (startedAtOf st sid) = false) :
    startedAtWriteStatuses st sid trace = [] := by
  induction trace generalizing st with
  | nil => rfl
  | cons c cs ih =>
      have hnc : startedAtOf (applyUpdate st c) sid = startedAtOf st sid := by
        rw [startedAtOf_applyUpdate]
        rw [if_neg]
        intro hc
        rw [h] at hc
        exact Bool.false_ne_true hc.2.2.2
      unfold startedAtWriteStatuses
      rw [if_pos hnc]
      rw [List.nil_append]
      exact ih (applyUpdate st c) (hnc ▸ h)

/-- C7: along any sequence of `update_session_status` calls whose clock
readings are non-empty timestamps, the `started_at` field of any given
session is changed by at most one call, and any call that changes it has
status argument `running` — updates to `pending`, `running`-when-already-set,
`completed` or `failed` never modify it. -/
theorem started_at_written_at_most_once (st : ServiceState) (sid : String)
    (trace : List UpdateCall) (h : ∀ c ∈ trace, c.now ≠ "") :
    (startedAtWriteStatuses st sid trace).length ≤ 1 ∧
    ∀ s ∈ startedAtWriteStatuses st sid trace, s = "running" := by
  induction trace generalizing st with
  | nil => exact ⟨by simp [startedAtWriteStatuses], by simp [startedAtWriteStatuses]⟩
  | cons c cs ih =>
      by_cases hch : startedAtOf (applyUpdate st c) sid = startedAtOf st sid
      · have := ih (applyUpdate st c) (fun d hd => h d (List.mem_cons_of_mem c hd))
        unfold startedAtWriteStatuses
        rw [if_pos hch, List.nil_append]
        exact this
      · have hcond : c.session_id = sid ∧ (alookup st.sessions sid).isSome ∧
            c.status = "running" ∧ pyFalsy (startedAtOf st sid) = true := by
          by_contra hc
          exact hch (by rw [startedAtOf_applyUpdate, if_neg (by
            intro hx
            exact hc ⟨hx.1, hx.2.1, hx.2.2.1, hx.2.2.2⟩)])
        have hval : startedAtOf (applyUpdate st c) sid = some c.now := by
          rw [startedAtOf_applyUpdate, if_pos hcond]
        have hrest : startedAtWriteStatuses (applyUpdate st c) sid cs = [] := by
          apply startedAtWriteStatuses_of_nonFalsy
          rw [hval]
          simp [pyFalsy]
          exact h c (List.mem_cons_self c cs)
        unfold startedAtWriteStatuses
        rw [if_neg hch, hrest]
        constructor
        · simp
        · intro s hs
          simp at hs
          rw [hs, ← hcond.2.2.1]

/-- Concrete trace for the C7 witness: revive to pending, start running,
try running again, finish, revive, run again — `started_at` must change at
most once, on the first `running`. -/
def c7State : ServiceState :=
  { sessions := [("s", { session_id := "s", status := "pending",
                         created_at := "t0" })] }

/-- The C7 witness trace. -/
def c7Trace : List UpdateCall :=
  [ { session_id := "s", status := "running", now := "t1" },
    { session_id := "s", status := "running", now := "t2" },
    { session_id := "s", status := "completed",
      result := some (Value.str "r"), execution_time := some 2, now := "t3" },
    { session_id := "s", status := "pending", now := "t4" },
    { session_id := "s", status := "running", now := "t5" } ]

theorem started_at_written_at_most_once_witness :
    (startedAtWriteStatuses c7State "s" c7Trace).length ≤ 1 ∧
    ∀ s ∈ startedAtWriteStatuses c7State "s" c7Trace, s = "running" :=
  started_at_written_at_most_once c7State "s" c7Trace (by decide)

/-! ### C3: the event log is bounded at 200 with FIFO eviction -/

theorem appendCapped_length (l : List StepEvent) (e : StepEvent)
    (h : l.length ≤ MAX_EVENTS_PER_SESSION) :
    (appendCapped l e).length ≤ MAX_EVENTS_PER_SESSION := by
  unfold appendCapped
  dsimp only
  split
  · next h1 =>
      rw [List.length_tail, List.length_append, List.length_singleton]
      omega
  · next h1 =>
      rw [List.length_append, List.length_singleton]
      rw [List.length_append, List.length_singleton] at h1
      omega

theorem appendCapped_as_drop (l : List StepEvent) (e : StepEvent)
    (h : l.length ≤ MAX_EVENTS_PER_SESSION) :
    appendCapped l e = (l ++ [e]).drop ((l ++ [e]).length - MAX_EVENTS_PER_SESSION) := by
  unfold appendCapped
  dsimp only
  split
  · next h1 =>
      rw [List.length_append, List.length_singleton] at h1 ⊢
      have hd : l.length + 1 - MAX_EVENTS_PER_SESSION = 1 := by omega
      rw [hd, ← List.drop_one]
  · next h1 =>
      rw [List.length_append, List.length_singleton] at h1 ⊢
      have hd : l.length + 1 - MAX_EVENTS_PER_SESSION = 0 := by omega
      rw [hd, List.drop_zero]

/-- Dropping down to the last `M` elements commutes with appending more
elements and re-dropping: the capped log of `A ++ B` can be computed by
capping `A` first. -/
theorem drop_lastN_append {α : Type} (A B : List α) (M : Nat) :
    ((A.drop (A.length - M)) ++ B).drop
        (((A.drop (A.length - M)) ++ B).length - M) =
      (A ++ B).drop ((A ++ B).length - M) := by
  by_cases hA : A.length ≤ M
  · rw [Nat.sub_eq_zero_of_le hA, List.drop_zero]
  · have hA' : M < A.length := Nat.lt_of_not_le hA
    have hlen : (A.drop (A.length - M)).length = M := by
      rw [List.length_drop]
      omega
    rw [List.drop_append_eq_append_drop, List.drop_append_eq_append_drop]
    by_cases hB : M ≤ B.length
    · have h1 : (A.drop (A.length - M)).drop
          (((A.drop (A.length - M)) ++ B).length - M) = [] := by
        apply List.drop_eq_nil_of_le
        rw [List.length_append, hlen]
        omega
      have h2 : A.drop ((A ++ B).length - M) = [] := by
        apply List.drop_eq_nil_of_le
        rw [List.length_append]
        omega
      rw [h1, h2, List.nil_append, List.nil_append]
      congr 1
      rw [List.length_append, List.length_append, hlen]
      omega
    · have h1 : ((A.drop (A.length - M)) ++ B).length - M -
          (A.drop (A.length - M)).length = 0 := by
        rw [List.length_append, hlen]
        omega
      have h2 : (A ++ B).length - M - A.length = 0 := by
        rw [List.length_append]
        omega
      rw [h1, h2, List.drop_zero]
      congr 1
      rw [List.drop_drop]
      congr 1
      rw [List.length_append, List.length_append, hlen]
      omega

theorem foldl_appendCapped (es : List StepEvent) (l : List StepEvent)
    (h : l.length ≤ MAX_EVENTS_PER_SESSION) :
    es.foldl appendCapped l =
      (l ++ es).drop ((l ++ es).length - MAX_EVENTS_PER_SESSION) := by
  induction es generalizing l with
  | nil =>
      rw [List.foldl_nil, List.append_nil, Nat.sub_eq_zero_of_le h, List.drop_zero]
  | cons e es ih =>
      rw [List.foldl_cons, ih (appendCapped l e) (appendCapped_length l e h),
        appendCapped_as_drop l e h,
        drop_lastN_append (l ++ [e]) es MAX_EVENTS_PER_SESSION,
        show (l ++ [e]) ++ es = l ++ e :: es by simp]

theorem eventsOf_foldl_broadcast (es : List StepEvent) (st : ServiceState)
    (sid : String) :
    eventsOf (es.foldl (fun s e => broadcast_event s sid e) st) sid =
      es.foldl appendCapped (eventsOf st sid) := by
  induction es generalizing st with
  | nil => rfl
  | cons e es ih =>
      rw [List.foldl_cons, List.foldl_cons, ih, eventsOf_broadcast_self]

/-- C3: after any sequence of `broadcast_event` calls the event log of any
session holds at most `MAX_EVENTS_PER_SESSION = 200` events (given it started
within the bound, e.g. from the empty state), and broadcasting 250 events to
a session whose log starts empty leaves exactly the 200 most recent in append
order (`drop 50`), the oldest 50 having been evicted first. -/
theorem event_log_bounded_and_fifo :
    (∀ (trace : List (String × StepEvent)) (st : ServiceState) (k : String),
      (eventsOf st k).length ≤ MAX_EVENTS_PER_SESSION →
      (eventsOf (trace.foldl (fun s p => broadcast_event s p.1 p.2) st) k).length ≤
        MAX_EVENTS_PER_SESSION) ∧
    (∀ (es : List StepEvent) (sid : String) (st : ServiceState),
      eventsOf st sid = [] → es.length = 250 →
      eventsOf (es.foldl (fun s e => broadcast_event s sid e) st) sid =
        es.drop 50) := by
  constructor
  · intro trace
    induction trace with
    | nil => intro st k h; exact h
    | cons p ps ih =>
        intro st k h
        rw [List.foldl_cons]
        apply ih
        by_cases hk : k = p.1
        · subst hk
          rw [eventsOf_broadcast_self]
          exact appendCapped_length _ _ h
        · rw [eventsOf_broadcast_ne _ _ _ _ hk]
          exact h
  · intro es sid st h0 h250
    rw [eventsOf_foldl_broadcast, h0,
      foldl_appendCapped es [] (by simp [MAX_EVENTS_PER_SESSION]),
      List.nil_append, h250]
    norm_num [MAX_EVENTS_PER_SESSION]

/-- A small event factory for the C3 and C8 witnesses. -/
def mkEv (n : Nat) : StepEvent :=
  { session_id := "s", timestamp := toString n, event_type := "step_update",
    status := "running" }

theorem event_log_bounded_and_fifo_witness :
    ((eventsOf emptyService "s").length ≤ MAX_EVENTS_PER_SESSION ∧
      (eventsOf ((((List.range 3).map mkEv).map (fun e => ("s", e))).foldl
        (fun s p => broadcast_event s p.1 p.2) emptyService) "s").length ≤
        MAX_EVENTS_PER_SESSION) ∧
    (eventsOf emptyService "s" = [] ∧
      ((List.range 250).map mkEv).length = 250 ∧
      eventsOf (((List.range 250).map mkEv).foldl
        (fun s e => broadcast_event s "s" e) emptyService) "s" =
          ((List.range 250).map mkEv).drop 50) :=
  ⟨⟨by decide,
    event_log_bounded_and_fifo.1 (((List.range 3).map mkEv).map (fun e => ("s", e)))
      emptyService "s" (by decide)⟩,
   ⟨rfl, by simp,
    event_log_bounded_and_fifo.2 ((List.range 250).map mkEv) "s" emptyService
      rfl (by simp)⟩⟩

/-! ### C4: full or failing subscribers are dropped in the same broadcast pass -/

theorem putNowait_some (q : Subscriber) (e : StepEvent) (q2 : Subscriber)
    (h : putNowait q e = some q2) : q2 = { q with buf := q.buf ++ [e] } := by
  unfold putNowait at h
  split at h
  · cases h
  · split at h
    · injection h with h2
      exact h2.symm
    · cases h

theorem connsOf_set (ss : List (String × SessionStatus))
    (cs : List (String × List Subscriber)) (es : List (String × List StepEvent))
    (sid : String) :
    connsOf { sessions := ss, connections := cs, events := es } sid =
      (alookup cs sid).getD [] := rfl

theorem connsOf_remove (st : ServiceState) (sid : String) (d : Subscriber) :
    connsOf (remove_connection st sid d) sid =
      (connsOf st sid).filter (fun r => ¬ d.qid = r.qid) := by
  have hpt : ∀ L : List Subscriber,
      L.filter (fun r => ¬ r.qid = d.qid) = L.filter (fun r => ¬ d.qid = r.qid) := by
    intro L
    apply List.filter_congr
    intro a _
    exact decide_eq_decide.mpr (not_congr eq_comm)
  unfold remove_connection
  dsimp only
  split
  · next he =>
      rw [connsOf_set, alookup_aerase_self, ← hpt (connsOf st sid)]
      have he' : (connsOf st sid).filter (fun r => ¬ r.qid = d.qid) = [] :=
        List.isEmpty_iff.mp he
      rw [he']
      rfl
  · next he =>
      rw [connsOf_set, alookup_aupdate_self, ← hpt (connsOf st sid)]
      rfl

theorem connsOf_foldl_remove (ds : List Subscriber) (st : ServiceState)
    (sid : String) :
    connsOf (ds.foldl (fun s q => remove_connection s sid q) st) sid =
      (connsOf st sid).filter (fun r => ds.all (fun d => ¬ d.qid = r.qid)) := by
  induction ds generalizing st with
  | nil =>
      rw [List.foldl_nil]
      exact (List.filter_true (connsOf st sid)).symm
  | cons d ds ih =>
      rw [List.foldl_cons, ih, connsOf_remove, List.filter_filter]
      apply List.filter_congr
      intro a _
      rw [List.all_cons, Bool.and_comm]

theorem connsOf_broadcast (st : ServiceState) (sid : String) (e : StepEvent) :
    connsOf (broadcast_event st sid e) sid =
      ((connsOf st sid).map (fun q => (putNowait q e).getD q)).filter
        (fun r => ((connsOf st sid).filter
          (fun q => (putNowait q e).isNone)).all (fun d => ¬ d.qid = r.qid)) := by
  unfold broadcast_event
  dsimp only
  rw [connsOf_foldl_remove]
  split
  · next hemp =>
      have hc : connsOf st sid = [] := List.isEmpty_iff.mp hemp
      rw [connsOf_set]
      rw [show ((alookup st.connections sid).getD []) = connsOf st sid from rfl, hc]
      rfl
  · next hne =>
      rw [connsOf_set, alookup_aupdate_self]
      rfl

/-- C4: in every `broadcast_event` pass, every registered subscriber whose
bounded queue is full or whose send otherwise fails is removed from the
subscriber registry in that same pass (no subscriber with its identity
remains), and every other registered subscriber still receives the event —
it stays registered with the event appended to its queue. The dropped
delivery is never retried: the failed subscriber is gone from the registry,
so no later broadcast can reach it. Queue identities are distinct because the
registry is a Python set of queue objects. -/
theorem broadcast_backpressure (st : ServiceState) (sid : String) (e : StepEvent)
    (hnd : ((connsOf st sid).map (fun q => q.qid)).Nodup) :
    (∀ q ∈ connsOf st sid, putNowait q e = none →
      ∀ r ∈ connsOf (broadcast_event st sid e) sid, r.qid ≠ q.qid) ∧
    (∀ q ∈ connsOf st sid, ∀ q2, putNowait q e = some q2 →
      q2 ∈ connsOf (broadcast_event st sid e) sid ∧ q2.buf = q.buf ++ [e]) := by
  rw [connsOf_broadcast]
  constructor
  · intro q hq hfail r hr
    rw [List.mem_filter] at hr
    have hall := List.all_eq_true.mp hr.2
    have hqd : q ∈ (connsOf st sid).filter (fun q => (putNowait q e).isNone) := by
      rw [List.mem_filter]
      refine ⟨hq, ?_⟩
      show (putNowait q e).isNone = true
      rw [hfail]
      rfl
    have hne := hall q hqd
    rw [decide_eq_true_eq] at hne
    intro hqr
    exact hne hqr.symm
  · intro q hq q2 hsome
    have hbuf : q2 = { q with buf := q.buf ++ [e] } := putNowait_some q e q2 hsome
    have hqid : q2.qid = q.qid := by rw [hbuf]
    constructor
    · rw [List.mem_filter]
      constructor
      · have himg : (fun q => (putNowait q e).getD q) q = q2 := by
          show (putNowait q e).getD q = q2
          rw [hsome]
          rfl
        rw [← himg]
        exact List.mem_map_of_mem (fun q => (putNowait q e).getD q) hq
      · show ((connsOf st sid).filter (fun q => (putNowait q e).isNone)).all
          (fun d => ¬ d.qid = q2.qid) = true
        rw [List.all_eq_true]
        intro d hd
        rw [List.mem_filter] at hd
        show decide (¬ d.qid = q2.qid) = true
        rw [decide_eq_true_eq]
        intro hdq
        have hdmem := hd.1
        have hdq2 : d = q := by
          apply List.inj_on_of_nodup_map hnd hdmem hq
          rw [hdq, hqid]
        have hdnone : (putNowait d e).isNone = true := hd.2
        rw [hdq2, hsome] at hdnone
        exact Bool.false_ne_true hdnone
    · rw [hbuf]

/-- Concrete registry for the C4 witness: subscriber 0 has a full queue
(capacity 1, one pending item), subscriber 1 has room. -/
def c4State : ServiceState :=
  { connections := [("s", [ { qid := 0, maxsize := 1, buf := [mkEv 9] },
                            { qid := 1, maxsize := 100 } ])] }

theorem broadcast_backpressure_witness :
    ((connsOf c4State "s").map (fun q => q.qid)).Nodup ∧
    (∀ r ∈ connsOf (broadcast_event c4State "s" (mkEv 7)) "s", r.qid ≠ 0) ∧
    (({ qid := 1, maxsize := 100, buf := [mkEv 7] } : Subscriber) ∈
      connsOf (broadcast_event c4State "s" (mkEv 7)) "s") := by
  have hnd : ((connsOf c4State "s").map (fun q => q.qid)).Nodup := by decide
  have h := broadcast_backpressure c4State "s" (mkEv 7) hnd
  refine ⟨hnd, ?_, ?_⟩
  · intro r hr
    exact h.1 { qid := 0, maxsize := 1, buf := [mkEv 9] } (by decide) (by decide) r hr
  · exact (h.2 { qid := 1, maxsize := 100 } (by decide)
      { qid := 1, maxsize := 100, buf := [mkEv 7] } (by decide)).1

/-! ### C8: replay of the last 20 stored events, then live events only -/

theorem putNowait_getD_qid (a : Subscriber) (e : StepEvent) :
    ((putNowait a e).getD a).qid = a.qid := by
  unfold putNowait
  split_ifs <;> rfl

/-- A subscriber with a working queue and enough remaining capacity stays
registered across a sequence of broadcasts and accumulates exactly those
events, and it remains the unique subscriber with its queue identity. -/
theorem subscriber_receives_all (bs : List StepEvent) (st : ServiceState)
    (sid : String) (q : Subscriber)
    (hmem : q ∈ connsOf st sid)
    (huniq : ∀ r ∈ connsOf st sid, r.qid = q.qid → r = q)
    (hbroken : q.broken = false)
    (hroom : q.buf.length + bs.length ≤ q.maxsize) :
    ({ q with buf := q.buf ++ bs } ∈
        connsOf (bs.foldl (fun s e => broadcast_event s sid e) st) sid) ∧
    (∀ r ∈ connsOf (bs.foldl (fun s e => broadcast_event s sid e) st) sid,
      r.qid = q.qid → r = { q with buf := q.buf ++ bs }) := by
  induction bs generalizing st q with
  | nil =>
      have hq : ({ q with buf := q.buf ++ [] } : Subscriber) = q := by
        rw [List.append_nil]
      rw [List.foldl_nil, hq]
      exact ⟨hmem, huniq⟩
  | cons e bs ih =>
      rw [List.foldl_cons]
      have hput : putNowait q e = some { q with buf := q.buf ++ [e] } := by
        unfold putNowait
        rw [if_neg (by rw [hbroken]; exact Bool.false_ne_true)]
        rw [if_pos]
        rw [List.length_cons] at hroom
        omega
      have hconn' := connsOf_broadcast st sid e
      have hmem' : ({ q with buf := q.buf ++ [e] } : Subscriber) ∈
          connsOf (broadcast_event st sid e) sid := by
        rw [hconn', List.mem_filter]
        constructor
        · have himg : (fun r => (putNowait r e).getD r) q =
              { q with buf := q.buf ++ [e] } := by
            show (putNowait q e).getD q = _
            rw [hput]
            rfl
          rw [← himg]
          exact List.mem_map_of_mem _ hmem
        · show ((connsOf st sid).filter (fun r => (putNowait r e).isNone)).all
            (fun d => ¬ d.qid =
              ({ q with buf := q.buf ++ [e] } : Subscriber).qid) = true
          rw [List.all_eq_true]
          intro d hd
          rw [List.mem_filter] at hd
          show decide (¬ d.qid =
            ({ q with buf := q.buf ++ [e] } : Subscriber).qid) = true
          rw [decide_eq_true_eq]
          intro hdq
          have hdq2 : d = q := huniq d hd.1 hdq
          have hdnone : (putNowait d e).isNone = true := hd.2
          rw [hdq2, hput] at hdnone
          exact Bool.false_ne_true hdnone
      have huniq' : ∀ r ∈ connsOf (broadcast_event st sid e) sid,
          r.qid = q.qid → r = { q with buf := q.buf ++ [e] } := by
        intro r hr hrq
        rw [hconn', List.mem_filter] at hr
        obtain ⟨hrm, -⟩ := hr
        rw [List.mem_map] at hrm
        obtain ⟨a, ha, hfa⟩ := hrm
        have hfa' : (putNowait a e).getD a = r := hfa
        have haq : a.qid = q.qid := by
          rw [← hfa'] at hrq
          rw [putNowait_getD_qid] at hrq
          exact hrq
        have ha2 : a = q := huniq a ha haq
        rw [ha2, hput] at hfa'
        exact hfa'.symm
      have hih := ih (broadcast_event st sid e) { q with buf := q.buf ++ [e] }
        hmem' huniq' hbroken
        (by
          show (q.buf ++ [e]).length + bs.length ≤ q.maxsize
          rw [List.length_append, List.length_singleton]
          rw [List.length_cons] at hroom
          omega)
      have hb : (q.buf ++ [e]) ++ bs = q.buf ++ e :: bs := by
        rw [List.append_assoc, List.singleton_append]
      have hrec : ({ q with buf := (q.buf ++ [e]) ++ bs } : Subscriber) =
          { q with buf := q.buf ++ e :: bs } := by
        rw [hb]
      obtain ⟨hm2, hu2⟩ := hih
      constructor
      · rw [← hrec]
        exact hm2
      · intro r hr hrq
        rw [← hrec]
        exact hu2 r hr hrq

theorem find?_eq_some_of_unique {α : Type} (L : List α) (p : α → Bool) (a : α)
    (h1 : a ∈ L) (hp : p a = true) (hu : ∀ r ∈ L, p r = true → r = a) :
    L.find? p = some a := by
  induction L with
  | nil => cases h1
  | cons b t ih =>
      rcases hb : p b with _ | _
      · rw [List.find?_cons_of_neg _ (by rw [hb]; exact Bool.false_ne_true)]
        apply ih
        · rcases List.mem_cons.mp h1 with h | h
          · exfalso
            rw [h, hb] at hp
            exact Bool.false_ne_true hp
          · exact h
        · intro r hr hpr
          exact hu r (List.mem_cons_of_mem b hr) hpr
      · rw [List.find?_cons_of_pos _ hb]
        rw [hu b (List.mem_cons_self b t) hb]

/-- C8: opening a stream against a session whose event log holds 25 stored
events yields, after the synthetic `connected` message, exactly the last 20
stored events in their original append order tagged historical, followed by
exactly the events broadcast after the connection was registered, each tagged
non-historical (sequential schedule; the fresh client queue has capacity 100
and the live events fit in it). -/
theorem stream_replay_then_live (st : ServiceState) (sid : String)
    (q : Subscriber) (ts : String) (bs : List StepEvent) (l : List StepEvent)
    (hlog : eventsOf st sid = l) (h25 : l.length = 25)
    (hbuf : q.buf = []) (hbroken : q.broken = false) (hmax : q.maxsize = 100)
    (hfresh : ∀ r ∈ connsOf st sid, r.qid ≠ q.qid)
    (hcount : bs.length ≤ 100) :
    stream_scenario st sid q ts bs =
      SSEMessage.connected sid ts ::
        ((l.drop 5).map (fun e => SSEMessage.ev e true) ++
          bs.map (fun e => SSEMessage.ev e false)) := by
  have hlne : l.isEmpty = false := by
    cases l with
    | nil => cases h25
    | cons a t => rfl
  have hevadd : eventsOf (add_connection st sid q) sid = l := hlog
  have hge : get_session_events (add_connection st sid q) sid 20 = l.drop 5 := by
    unfold get_session_events
    rw [show (alookup (add_connection st sid q).events sid).getD [] = l from hevadd]
    rw [if_neg (by rw [hlne]; exact Bool.false_ne_true)]
    rw [h25]
  have hany : ((alookup st.connections sid).getD []).any
      (fun r => r.qid = q.qid) = false := by
    rcases hval : ((alookup st.connections sid).getD []).any
        (fun r => r.qid = q.qid) with _ | _
    · rfl
    · exfalso
      obtain ⟨r, hr, hp⟩ := List.any_eq_true.mp hval
      have hp' : r.qid = q.qid := by simpa using hp
      exact hfresh r hr hp'
  have hconn1 : connsOf (add_connection st sid q) sid = connsOf st sid ++ [q] := by
    unfold add_connection
    dsimp only
    rw [connsOf_set, alookup_aupdate_self, hany]
    rfl
  have hmem1 : q ∈ connsOf (add_connection st sid q) sid := by
    rw [hconn1]
    exact List.mem_append_right _ (List.mem_singleton_self q)
  have huniq1 : ∀ r ∈ connsOf (add_connection st sid q) sid,
      r.qid = q.qid → r = q := by
    intro r hr hrq
    rw [hconn1] at hr
    rcases List.mem_append.mp hr with h | h
    · exact absurd hrq (hfresh r h)
    · exact List.mem_singleton.mp h
  have hsub := subscriber_receives_all bs (add_connection st sid q) sid q
    hmem1 huniq1 hbroken (by rw [hbuf, hmax]; simpa using hcount)
  obtain ⟨hm, hu⟩ := hsub
  have hfind : ((connsOf (bs.foldl (fun s e => broadcast_event s sid e)
        (add_connection st sid q)) sid).find? (fun r => r.qid = q.qid)) =
      some { q with buf := q.buf ++ bs } := by
    apply find?_eq_some_of_unique _ _ _ hm
    · show decide (({ q with buf := q.buf ++ bs } : Subscriber).qid = q.qid) = true
      rw [decide_eq_true_eq]
    · intro r hr hpr
      have hpr' : r.qid = q.qid := by simpa using hpr
      exact hu r hr hpr'
  unfold stream_scenario stream_open
  dsimp only
  rw [hge]
  rw [show (alookup (bs.foldl (fun s e => broadcast_event s sid e)
      (add_connection st sid q)).connections sid).getD [] =
    connsOf (bs.foldl (fun s e => broadcast_event s sid e)
      (add_connection st sid q)) sid from rfl]
  rw [hfind]
  rw [show (some ({ q with buf := q.buf ++ bs } : Subscriber)).map
      (fun r => r.buf) = some (q.buf ++ bs) from rfl]
  rw [show (some (q.buf ++ bs)).getD [] = q.buf ++ bs from rfl]
  rw [hbuf, List.nil_append, List.cons_append]

/-- A 25-event log for the C8 witness. -/
def c8Log : List StepEvent := (List.range 25).map mkEv

/-- Concrete state for the C8 witness: session `"s"` with 25 stored events
and no subscribers yet. -/
def c8State : ServiceState := { events := [("s", c8Log)] }

theorem stream_replay_then_live_witness :
    stream_scenario c8State "s" { qid := 0, maxsize := 100 } "t"
        [mkEv 100, mkEv 101] =
      SSEMessage.connected "s" "t" ::
        ((c8Log.drop 5).map (fun e => SSEMessage.ev e true) ++
          [mkEv 100, mkEv 101].map (fun e => SSEMessage.ev e false)) :=
  stream_replay_then_live c8State "s" { qid := 0, maxsize := 100 } "t"
    [mkEv 100, mkEv 101] c8Log rfl (by simp [c8Log]) rfl rfl rfl
    (by
      intro r hr
      rw [show connsOf c8State "s" = [] from rfl] at hr
      cases hr)
    (by decide)

/-! ### C6: terminal sessions have exactly one of result / error populated -/

/-- The action of `update_session_status` on the sessions dictionary alone. -/
def sessionsUpdate (l : List (String × SessionStatus)) (sid status : String)
    (r : Option Value) (er : Option String) (ti : Option Rat) (now : String) :
    List (String × SessionStatus) :=
  match alookup l sid with
  | none => l
  | some s => aupdate l sid (updatedSession s status r er ti now)

theorem get_session_eq (st : ServiceState) (sid : String) :
    get_session st sid = alookup st.sessions sid := rfl

theorem update_session_status_sessions (st : ServiceState) (sid status : String)
    (r : Option Value) (er : Option String) (ti : Option Rat) (now : String) :
    (update_session_status st sid status r er ti now).sessions =
      sessionsUpdate st.sessions sid status r er ti now := by
  unfold update_session_status sessionsUpdate
  rcases h : alookup st.sessions sid with _ | s <;> rfl

theorem alookup_sessionsUpdate (l : List (String × SessionStatus)) (sid : String)
    (s : SessionStatus) (h : alookup l sid = some s) (status : String)
    (r : Option Value) (er : Option String) (ti : Option Rat) (now : String) :
    alookup (sessionsUpdate l sid status r er ti now) sid =
      some (updatedSession s status r er ti now) := by
  unfold sessionsUpdate
  rw [h]
  exact alookup_aupdate_self l sid _

theorem updatedSession_terminal (s : SessionStatus) (status : String)
    (r : Option Value) (er : Option String) (ti : Option Rat) (now : String)
    (h : status = "completed" ∨ status = "failed") :
    updatedSession s status r er ti now =
      { s with status := status, completed_at := some now, result := r,
               error := er, execution_time := ti } := by
  unfold updatedSession
  dsimp only
  rw [if_neg (by rcases h with h | h <;> rw [h] <;> simp), if_pos h]

/-- C6: on every finalization path of the execution driver — collaborator
success, collaborator failure caught inside `run_query`, or an exception
(tool validation) escaping to `_execute_session` — the session ends in a
terminal state with exactly one of `result` and `error` populated: result
non-null and error null on `completed`, result null and error non-null on
`failed`. -/
theorem terminal_exactly_one (svc : ServiceState) (ps : PortiaState)
    (sid query : String) (qt : QueryType) (repo : Option String)
    (tool_map : QueryType → List String) (available : List String)
    (co : CollabOutcome) (t1 t2 t3 t4 t5 t6 : String) (s0 : SessionStatus)
    (hs0 : get_session svc sid = some s0) :
    ∃ s, get_session (execute_session svc ps sid query qt repo tool_map
        available co t1 t2 t3 t4 t5 t6).1 sid = some s ∧
      (s.status = "completed" ∨ s.status = "failed") ∧
      ((s.result.isSome ∧ s.error = none) ∨
        (s.result = none ∧ s.error.isSome)) := by
  have hs0' : alookup svc.sessions sid = some s0 := hs0
  rcases hg : getPortiaInstance { ps with current_session_id := some sid }
      (tool_map qt) available with e | ps2
  · -- tool validation raises; _execute_session records the failure
    have hrq : run_query { ps with current_session_id := some sid }
        (formatTemplate qt (template_map qt) query repo)
        (tool_map qt) available co = .error e := by
      unfold run_query
      rw [hg]
    refine ⟨updatedSession (updatedSession s0 "running" none none none t2)
      "failed" none (some (invalidToolsMessage e)) none t6, ?_, ?_, ?_⟩
    · rw [get_session_eq]
      simp only [execute_session, run_query_with_session, hrq]
      rw [update_session_status_sessions, broadcast_event_sessions,
        update_session_status_sessions, broadcast_event_sessions]
      exact alookup_sessionsUpdate _ sid _
        (alookup_sessionsUpdate svc.sessions sid s0 hs0' "running" none none
          none t2) "failed" none (some (invalidToolsMessage e)) none t6
    · rw [updatedSession_terminal _ _ _ _ _ _ (Or.inr rfl)]
      exact Or.inr rfl
    · rw [updatedSession_terminal _ _ _ _ _ _ (Or.inr rfl)]
      exact Or.inr ⟨rfl, rfl⟩
  · rcases co with ⟨v, t⟩ | ⟨m, t⟩
    · -- collaborator success: session completed with the result
      have hrq : run_query { ps with current_session_id := some sid }
          (formatTemplate qt (template_map qt) query repo)
          (tool_map qt) available (.ok v t) =
          .ok (ps2, { success := true, result := some v, execution_time := t }) := by
        unfold run_query
        rw [hg]
      refine ⟨updatedSession (updatedSession s0 "running" none none none t2)
        "completed" (some v) none (some t) t4, ?_, ?_, ?_⟩
      · rw [get_session_eq]
        simp only [execute_session, run_query_with_session, hrq]
        rw [if_pos trivial]
        rw [broadcast_event_sessions, update_session_status_sessions,
          broadcast_event_sessions, update_session_status_sessions,
          broadcast_event_sessions]
        exact alookup_sessionsUpdate _ sid _
          (alookup_sessionsUpdate svc.sessions sid s0 hs0' "running" none none
            none t2) "completed" (some v) none (some t) t4
      · rw [updatedSession_terminal _ _ _ _ _ _ (Or.inl rfl)]
        exact Or.inl rfl
      · rw [updatedSession_terminal _ _ _ _ _ _ (Or.inl rfl)]
        exact Or.inl ⟨rfl, rfl⟩
    · -- collaborator failure caught in run_query: session failed with error
      have hrq : run_query { ps with current_session_id := some sid }
          (formatTemplate qt (template_map qt) query repo)
          (tool_map qt) available (.raised m t) =
          .ok (ps2, { success := false, error := some m, execution_time := t }) := by
        unfold run_query
        rw [hg]
      refine ⟨updatedSession (updatedSession s0 "running" none none none t2)
        "failed" none (some m) (some t) t4, ?_, ?_, ?_⟩
      · rw [get_session_eq]
        simp only [execute_session, run_query_with_session, hrq]
        rw [if_neg Bool.false_ne_true]
        rw [broadcast_event_sessions, update_session_status_sessions,
          broadcast_event_sessions, update_session_status_sessions,
          broadcast_event_sessions]
        exact alookup_sessionsUpdate _ sid _
          (alookup_sessionsUpdate svc.sessions sid s0 hs0' "running" none none
            none t2) "failed" none (some m) (some t) t4
      · rw [updatedSession_terminal _ _ _ _ _ _ (Or.inr rfl)]
        exact Or.inr rfl
      · rw [updatedSession_terminal _ _ _ _ _ _ (Or.inr rfl)]
        exact Or.inr ⟨rfl, rfl⟩

/-- Concrete state for the C6 witness: one pending session. -/
def c6State : ServiceState :=
  { sessions := [("s", { session_id := "s", status := "pending",
                         created_at := "t0" })] }

theorem terminal_exactly_one_witness :
    ∃ s, get_session (execute_session c6State {} "s" "2+2?" QueryType.chat none
        (fun _ => []) [] (CollabOutcome.ok (Value.str "4") 2)
        "t1" "t2" "t3" "t4" "t5" "t6").1 "s" = some s ∧
      (s.status = "completed" ∨ s.status = "failed") ∧
      ((s.result.isSome ∧ s.error = none) ∨
        (s.result = none ∧ s.error.isSome)) :=
  terminal_exactly_one c6State {} "s" "2+2?" QueryType.chat none (fun _ => []) []
    (CollabOutcome.ok (Value.str "4") 2) "t1" "t2" "t3" "t4" "t5" "t6"
    { session_id := "s", status := "pending", created_at := "t0" } rfl

/-! ### C1: invalid tools do not fail the create call — the session is created -/

/-- C1 (divergence): with a query type whose tool selection `["llm_tool"]` is
not contained in the (empty) available-tool map, the create-session call still
succeeds: it returns a 201 response carrying a session id and a stream URL,
and the session is created; the `InvalidToolsError` is raised only inside the
background `_execute_session` task, which swallows it and marks the session
`failed` with the error message — it never reaches the endpoint's
`except InvalidToolsError` handler, so the claimed immediate 400 failure with
the invalid/available tool lists cannot occur and a session id is produced. -/
theorem create_session_invalid_tools_behavior :
    (create_session_flow emptyService {}
        { query := "2+2?", query_type := QueryType.chat } "s1" "t0"
        (fun _ => ["llm_tool"]) [] (CollabOutcome.ok (Value.str "4") 1)
        "t1" "t2" "t3" "t4" "t5" "t6").1 =
      { session_id := "s1", status := "pending", created_at := "t0",
        stream_url := "/sessions/s1/stream" } ∧
    get_session (create_session_flow emptyService {}
        { query := "2+2?", query_type := QueryType.chat } "s1" "t0"
        (fun _ => ["llm_tool"]) [] (CollabOutcome.ok (Value.str "4") 1)
        "t1" "t2" "t3" "t4" "t5" "t6").2.1 "s1" =
      some { session_id := "s1", status := "failed", created_at := "t0",
             started_at := some "t2", completed_at := some "t6",
             result := none, error := some "Invalid tools requested: llm_tool",
             execution_time := none } := by
  decide

end PortiaAgents
